import Mathlib

/-!
Shallow embedding of the lesson progress service in `src/index.ts`
(cpdacademy-video). The database is modelled as explicit state: a
`member_lesson` table of progress rows, a `course_lesson` table, and the
append-only `log_study_time` audit table. The handler
`app.post("/lesson/dwUpdateTime")` becomes the pure function
`dwUpdateTime : Db → RequestBody → Db × HandlerResult`; the helpers
`compareTime` and `logStudyTime` are translated line by line from the source.
JavaScript regular expressions are embedded as explicit character-list
matchers: `matchMMSS` embeds `^\d{1,2}:\d{2}$` and `searchHMS` embeds the
unanchored search for `(\d+):(\d+):(\d+)` (leftmost match; the greedy digit
groups cannot backtrack past a `:` requirement, so matching at a position is
deterministic).
-/

/-- Numeric value of a list of decimal digit characters (JavaScript `Number`
on a digit-only capture group). -/
def digitsToNat (l : List Char) : Nat :=
  l.foldl (fun n c => n * 10 + (c.toNat - 48)) 0

/-- Embedding of the anchored regex test `^\d{1,2}:\d{2}$` together with
`split(':').map(Number)`: returns the (minutes, seconds) pair exactly when the
whole string is 1-2 digits, a colon, and 2 digits. -/
def matchMMSS (s : String) : Option (Nat × Nat) :=
  match s.toList with
  | [a, ':', c, d] =>
      if a.isDigit && c.isDigit && d.isDigit then
        some (digitsToNat [a], digitsToNat [c, d])
      else none
  | [a, b, ':', c, d] =>
      if a.isDigit && b.isDigit && c.isDigit && d.isDigit then
        some (digitsToNat [a, b], digitsToNat [c, d])
      else none
  | _ => none

/-- Longest leading run of decimal digits and the remaining characters. -/
def takeDigits : List Char → List Char × List Char
  | [] => ([], [])
  | c :: rest =>
      if c.isDigit then
        let p := takeDigits rest
        (c :: p.1, p.2)
      else ([], c :: rest)

/-- Attempt to match `(\d+):(\d+):(\d+)` starting at the head of the list.
Each `\d+` is a maximal digit run: a shorter run would be followed by a digit,
never by the required `:`, so greedy matching is deterministic here. -/
def matchHMSAt (l : List Char) : Option (Nat × Nat × Nat) :=
  let p1 := takeDigits l
  if p1.1.isEmpty then none else
  match p1.2 with
  | ':' :: r2 =>
      let p2 := takeDigits r2
      if p2.1.isEmpty then none else
      match p2.2 with
      | ':' :: r4 =>
          let p3 := takeDigits r4
          if p3.1.isEmpty then none
          else some (digitsToNat p1.1, digitsToNat p2.1, digitsToNat p3.1)
      | _ => none
  | _ => none

/-- Unanchored search for `(\d+):(\d+):(\d+)`: try each start position from
the left, as a JavaScript regex `match` does. -/
def searchHMS : List Char → Option (Nat × Nat × Nat)
  | [] => none
  | c :: rest =>
      match matchHMSAt (c :: rest) with
      | some r => some r
      | none => searchHMS rest

/-- The inner `timeToSeconds` closure of `compareTime` (src/index.ts:199-215):
an exact `MM:SS` string gives `minutes*60 + seconds`; otherwise a contained
`a:b:c` group gives `b*60 + c`, discarding the first group; otherwise 0. -/
def timeToSeconds (time : String) : Nat :=
  match matchMMSS time with
  | some (m, s) => m * 60 + s
  | none =>
      match searchHMS time.toList with
      | some (_, m, s) => m * 60 + s
      | none => 0

/-- `compareTime` (src/index.ts:197-223): true when the new time strictly
exceeds the existing time under the strict normalizer. -/
def compareTime (newTime existingTime : String) : Bool :=
  decide (timeToSeconds existingTime < timeToSeconds newTime)

/-- The zero-padding step `replace(/^(\d{1,2}):(\d{2})$/, "00:$1:$2")` used in
`logStudyTime`: when the whole string matches `MM:SS` the replacement is
`"00:" ++` the original string, otherwise the string is unchanged. -/
def padExtended (s : String) : String :=
  if (matchMMSS s).isSome then "00:" ++ s else s

/-- The extended normalizer used by `logStudyTime` (src/index.ts:236-255):
zero-pad an `MM:SS` string, then search for `(\d+):(\d+):(\d+)` and return
`hours*3600 + minutes*60 + seconds`; `none` models the early `return false`
on an unparseable string. -/
def extendedSeconds (s : String) : Option Nat :=
  match searchHMS (padExtended s).toList with
  | some (h, m, sec) => some (h * 3600 + m * 60 + sec)
  | none => none

/-- `currentTime.replace(/:/g, '.').replace(/^0+/, '') || '0'`
(src/index.ts:276): replace every colon with a dot, strip the leading run of
zero characters, map an empty result to "0". -/
def studyTimeVideo (currentTime : String) : String :=
  let replaced := currentTime.toList.map (fun c => if c = ':' then '.' else c)
  let stripped := replaced.dropWhile (fun c => c = '0')
  if stripped.isEmpty then "0" else String.mk stripped

/-- A row of the `member_lesson` table: the columns the handler and the
logger read or write. -/
structure ProgressRow where
  MEMBER_ID : Nat
  ID : Nat
  CURRENT_TIME : String
  FINISHED : Nat
  LESSON_ID : Nat
  MEMBER_COURSE_ID : Nat
deriving DecidableEq, Repr

/-- A row of the `course_lesson` table (only the columns used). -/
structure CourseLessonRow where
  ID : Nat
  COURSE_ID : Nat
deriving DecidableEq, Repr

/-- A row of the append-only `log_study_time` audit table, in the column
order of the INSERT at src/index.ts:279-295. -/
structure LogRow where
  MEMBER_ID : Nat
  COURSE_ID : Nat
  LESSON_ID : Nat
  MEMBER_COURSE_ID : Nat
  STUDY_TIME : Nat
  PAUSE_VIDEO_LOGOUT : Nat
  LOGIN_START_VIDEO : Nat
  STUDY_TIME_VIDEO : String
  ANSWER : Option String
deriving DecidableEq, Repr

/-- The database state seen by one request. -/
structure Db where
  member_lesson : List ProgressRow
  course_lesson : List CourseLessonRow
  log_study_time : List LogRow
deriving DecidableEq, Repr

/-- `SELECT * FROM member_lesson WHERE MEMBER_ID = ? AND ID = ?`
(src/index.ts:122-125 and 229). -/
def selectProgress (db : Db) (memberId lessonId : Nat) : List ProgressRow :=
  db.member_lesson.filter (fun r => r.MEMBER_ID == memberId && r.ID == lessonId)

/-- `SELECT * FROM member_lesson WHERE ID = ?` (src/index.ts:262). -/
def selectLessonById (db : Db) (lessonId : Nat) : List ProgressRow :=
  db.member_lesson.filter (fun r => r.ID == lessonId)

/-- `SELECT * FROM course_lesson WHERE ID = ?` (src/index.ts:269). -/
def selectCourseLesson (db : Db) (id : Nat) : List CourseLessonRow :=
  db.course_lesson.filter (fun r => r.ID == id)

/-- The row a matching `UPDATE` writes: only `CURRENT_TIME` changes. -/
def setCurrentTime (currentTime : String) (r : ProgressRow) : ProgressRow :=
  { r with CURRENT_TIME := currentTime }

/-- `UPDATE member_lesson SET CURRENT_TIME = ? WHERE MEMBER_ID = ? AND
ID = ? AND FINISHED = 0` (src/index.ts:128-132): returns the new state and
the affected row count. -/
def updateCurrentTime (db : Db) (currentTime : String) (memberId lessonId : Nat) :
    Db × Nat :=
  let hit := fun (r : ProgressRow) =>
    r.MEMBER_ID == memberId && r.ID == lessonId && r.FINISHED == 0
  let affectedRows := (db.member_lesson.filter hit).length
  ({ db with
      member_lesson :=
        db.member_lesson.map (fun r => if hit r then setCurrentTime currentTime r else r) },
    affectedRows)

/-- The sentinel the route uses as the default `answer` (src/index.ts:97),
meaning "none" in Thai. -/
def noneSentinel : String := "ไม่มี"

/-- `logStudyTime` (src/index.ts:226-306). Every early `return false`,
including the TypeError thrown by `lessonData[0].LESSON_ID` on an empty
array (caught by the surrounding try/catch), becomes `(db, false)`; the
successful insert appends one `LogRow` and returns `true`. -/
def logStudyTime (db : Db) (memberId lessonId : Nat) (currentTime : String)
    (lessonData : List ProgressRow) (logout login : Nat) (answer : String) :
    Db × Bool :=
  match selectProgress db memberId lessonId with
  | [] => (db, false)
  | old0 :: _ =>
      match extendedSeconds old0.CURRENT_TIME with
      | none => (db, false)
      | some timeSeconds =>
          match extendedSeconds currentTime with
          | none => (db, false)
          | some timeSeconds2 =>
              let diffTime := Int.natAbs ((timeSeconds2 : Int) - (timeSeconds : Int))
              if diffTime ≠ 0 then
                match selectLessonById db lessonId with
                | [] => (db, false)
                | _ :: _ =>
                    match lessonData with
                    | [] => (db, false)
                    | ld0 :: _ =>
                        match selectCourseLesson db ld0.LESSON_ID with
                        | [] => (db, false)
                        | courseLessonRecord :: _ =>
                            let newRow : LogRow :=
                              { MEMBER_ID := memberId
                                COURSE_ID := courseLessonRecord.COURSE_ID
                                LESSON_ID := ld0.LESSON_ID
                                MEMBER_COURSE_ID := ld0.MEMBER_COURSE_ID
                                STUDY_TIME := diffTime
                                PAUSE_VIDEO_LOGOUT := logout
                                LOGIN_START_VIDEO := login
                                STUDY_TIME_VIDEO := studyTimeVideo currentTime
                                ANSWER := if answer = noneSentinel then none else some answer }
                            ({ db with
                                log_study_time := db.log_study_time ++ [newRow] }, true)
              else (db, true)

/-- The request body of `POST /lesson/dwUpdateTime`. The three required
fields are `Option`s so that an absent field (JavaScript `undefined`) is
distinguishable from a present zero or empty value; `logout`, `login` and
`answer` carry their destructuring defaults when the caller omits them. -/
structure RequestBody where
  memberId : Option Nat
  lessonId : Option Nat
  currentTime : Option String
  logout : Nat
  login : Nat
  answer : String
deriving DecidableEq, Repr

/-- The distinguishable outcomes of the route handler. -/
inductive HandlerResult where
  | validationError
  | notFound
  | notFoundOrFinished
  | successUpdated (row : ProgressRow)
  | successNoChange (row : ProgressRow)
deriving DecidableEq, Repr

/-- Response text of each outcome, verbatim from src/index.ts. -/
def responseMessage : HandlerResult → String
  | .validationError => "Missing required fields: memberId, lessonId, currentTime"
  | .notFound => "Lesson not found"
  | .notFoundOrFinished => "Lesson not found or already finished"
  | .successUpdated _ => "Lesson time saved!"
  | .successNoChange _ => "Current time not updated - new time is not greater than existing time"

/-- The handler of `POST /lesson/dwUpdateTime` (src/index.ts:96-194).
`!memberId || !lessonId || !currentTime` is truth on an absent field, a zero
id, or an empty string, modelled by `getD` with the falsy default followed by
the falsiness test. -/
def dwUpdateTime (db : Db) (req : RequestBody) : Db × HandlerResult :=
  let memberId := req.memberId.getD 0
  let lessonId := req.lessonId.getD 0
  let currentTime := req.currentTime.getD ""
  if memberId == 0 || lessonId == 0 || currentTime == "" then
    (db, .validationError)
  else
    match selectProgress db memberId lessonId with
    | [] => (db, .notFound)
    | d0 :: rest =>
        let db1 := (logStudyTime db memberId lessonId currentTime (d0 :: rest)
          req.logout req.login req.answer).1
        if compareTime currentTime d0.CURRENT_TIME then
          let upd := updateCurrentTime db1 currentTime memberId lessonId
          if upd.2 == 1 then (upd.1, .successUpdated d0)
          else (upd.1, .notFoundOrFinished)
        else (db1, .successNoChange d0)


/-! ### Helper lemmas -/

/-- The logger never touches the `member_lesson` table. -/
theorem logStudyTime_fst_member_lesson (db : Db) (memberId lessonId : Nat)
    (currentTime : String) (lessonData : List ProgressRow) (logout login : Nat)
    (answer : String) :
    (logStudyTime db memberId lessonId currentTime lessonData logout login
        answer).1.member_lesson = db.member_lesson := by
  simp only [logStudyTime]
  repeat' split
  all_goals rfl

/-- A failing logger call leaves the database untouched. -/
theorem logStudyTime_false_fst (db : Db) (memberId lessonId : Nat)
    (currentTime : String) (lessonData : List ProgressRow) (logout login : Nat)
    (answer : String)
    (h : (logStudyTime db memberId lessonId currentTime lessonData logout login
        answer).2 = false) :
    (logStudyTime db memberId lessonId currentTime lessonData logout login
        answer).1 = db := by
  revert h
  simp only [logStudyTime]
  repeat' split
  all_goals simp

/-- `selectProgress` reads only the `member_lesson` table. -/
theorem selectProgress_congr {db db' : Db} (h : db.member_lesson = db'.member_lesson)
    (memberId lessonId : Nat) :
    selectProgress db memberId lessonId = selectProgress db' memberId lessonId := by
  simp [selectProgress, h]

/-- The affected-row count of the conditional UPDATE depends only on the
`member_lesson` table. -/
theorem updateCurrentTime_snd_congr {db db' : Db}
    (h : db.member_lesson = db'.member_lesson) (currentTime : String)
    (memberId lessonId : Nat) :
    (updateCurrentTime db currentTime memberId lessonId).2
      = (updateCurrentTime db' currentTime memberId lessonId).2 := by
  simp [updateCurrentTime, h]

/-- The handler response depends only on the `member_lesson` table: the
`course_lesson` and `log_study_time` tables, which only the best-effort
logger reads or writes, never influence the caller-visible outcome. -/
theorem dwUpdateTime_snd_congr {db db' : Db} (req : RequestBody)
    (h : db.member_lesson = db'.member_lesson) :
    (dwUpdateTime db req).2 = (dwUpdateTime db' req).2 := by
  simp only [dwUpdateTime]
  rw [selectProgress_congr h]
  split
  · rfl
  · rename_i hcond
    cases hsp : selectProgress db' (req.memberId.getD 0) (req.lessonId.getD 0) with
    | nil => simp
    | cons d0 rest =>
        simp only
        have hml : ((logStudyTime db (req.memberId.getD 0) (req.lessonId.getD 0)
            (req.currentTime.getD "") (d0 :: rest) req.logout req.login req.answer).1).member_lesson
            = ((logStudyTime db' (req.memberId.getD 0) (req.lessonId.getD 0)
            (req.currentTime.getD "") (d0 :: rest) req.logout req.login req.answer).1).member_lesson := by
          rw [logStudyTime_fst_member_lesson, logStudyTime_fst_member_lesson, h]
        rw [updateCurrentTime_snd_congr hml]
        split
        · split <;> rfl
        · rfl

/-! ### Claims -/

/-- Claim C2: the strict normalizer returns `minutes*60 + seconds` on an
exact `MM:SS` string (1-2 digit minutes, 2-digit seconds), otherwise
`b*60 + c` on a contained `a:b:c` group with the first group discarded
regardless of its value, otherwise 0 and never an error; in particular
`timeToSeconds "5:30" = 330` and `timeToSeconds "01:05:30" = 330`. -/
theorem claim_C2_strict_normalizer :
    (∀ t m s, matchMMSS t = some (m, s) → timeToSeconds t = m * 60 + s) ∧
    (∀ t a b c, matchMMSS t = none → searchHMS t.toList = some (a, b, c) →
      timeToSeconds t = b * 60 + c) ∧
    (∀ t, matchMMSS t = none → searchHMS t.toList = none → timeToSeconds t = 0) ∧
    timeToSeconds "5:30" = 330 ∧ timeToSeconds "01:05:30" = 330 ∧
    timeToSeconds "123:4:5" = 245 ∧ timeToSeconds "99:05:30" = 330 ∧
    timeToSeconds "abc" = 0 := by
  refine ⟨?_, ?_, ?_, by decide, by decide, by decide, by decide, by decide⟩
  · intro t m s h
    simp [timeToSeconds, h]
  · intro t a b c h1 h2
    have h2' : searchHMS t.data = some (a, b, c) := h2
    simp [timeToSeconds, h1, h2']
  · intro t h1 h2
    have h2' : searchHMS t.data = none := h2
    simp [timeToSeconds, h1, h2']

/-- Witness for C2: each hypothesis of the claim discharged on a concrete
string. -/
theorem claim_C2_witness :
    timeToSeconds "5:30" = 5 * 60 + 30 ∧
    timeToSeconds "01:05:30" = 5 * 60 + 30 ∧
    timeToSeconds "abc" = 0 :=
  ⟨claim_C2_strict_normalizer.1 "5:30" 5 30 (by decide),
   claim_C2_strict_normalizer.2.1 "01:05:30" 1 5 30 (by decide) (by decide),
   claim_C2_strict_normalizer.2.2.1 "abc" (by decide) (by decide)⟩

/-- Claim C3: the extended normalizer zero-pads an `MM:SS` string to
`00:MM:SS` and parses `h:m:s` as `h*3600 + m*60 + s`, so
`extendedSeconds "5:30" = 330`, `extendedSeconds "1:05:30" = 3930`, and on
`"1:05:30"` the strict and extended normalizers disagree (330 vs 3930). -/
theorem claim_C3_extended_normalizer :
    (∀ s, (matchMMSS s).isSome = true → padExtended s = "00:" ++ s) ∧
    (∀ s h m sec, searchHMS (padExtended s).toList = some (h, m, sec) →
      extendedSeconds s = some (h * 3600 + m * 60 + sec)) ∧
    padExtended "5:30" = "00:5:30" ∧
    extendedSeconds "5:30" = some 330 ∧
    extendedSeconds "1:05:30" = some 3930 ∧
    timeToSeconds "1:05:30" = 330 ∧
    extendedSeconds "1:05:30" ≠ some (timeToSeconds "1:05:30") := by
  refine ⟨?_, ?_, by decide, by decide, by decide, by decide, by decide⟩
  · intro s h
    simp [padExtended, h]
  · intro s h m sec hm
    have hm' : searchHMS (padExtended s).data = some (h, m, sec) := hm
    simp [extendedSeconds, hm']

/-- Witness for C3: the padding rule and the extended parse discharged on
concrete strings. -/
theorem claim_C3_witness :
    padExtended "5:30" = "00:" ++ "5:30" ∧
    extendedSeconds "1:05:30" = some (1 * 3600 + 5 * 60 + 30) :=
  ⟨claim_C3_extended_normalizer.1 "5:30" (by decide),
   claim_C3_extended_normalizer.2.1 "1:05:30" 1 5 30 (by decide)⟩

/-- Claim C7: a request missing (or carrying a falsy) memberId, lessonId or
currentTime is rejected as a validation failure whose message names the
required fields, with the database unchanged (no write, no audit row; in the
source the check precedes every query). -/
theorem claim_C7_validation (db : Db) (req : RequestBody)
    (h : req.memberId.getD 0 = 0 ∨ req.lessonId.getD 0 = 0 ∨
      req.currentTime.getD "" = "") :
    dwUpdateTime db req = (db, .validationError) ∧
    responseMessage .validationError
      = "Missing required fields: memberId, lessonId, currentTime" := by
  constructor
  · simp only [dwUpdateTime]
    rcases h with h | h | h <;> simp [h]
  · rfl

/-- Witness for C7: a request with no memberId at all is rejected and the
empty database is untouched. -/
theorem claim_C7_witness :
    dwUpdateTime ⟨[], [], []⟩ ⟨none, some 1, some "5:30", 0, 0, "x"⟩
      = (⟨[], [], []⟩, .validationError) ∧
    responseMessage .validationError
      = "Missing required fields: memberId, lessonId, currentTime" :=
  claim_C7_validation ⟨[], [], []⟩ ⟨none, some 1, some "5:30", 0, 0, "x"⟩ (Or.inl rfl)

/-- Claim C10: the `!memberId || !lessonId || !currentTime` check tests
falsiness, so a present-but-zero memberId or lessonId is rejected as a
missing-field validation failure. -/
theorem claim_C10_zero_ids_rejected :
    (∀ db (lessonId : Nat) ct lo li ans,
      dwUpdateTime db ⟨some 0, some lessonId, some ct, lo, li, ans⟩
        = (db, .validationError)) ∧
    (∀ db (memberId : Nat) ct lo li ans,
      dwUpdateTime db ⟨some memberId, some 0, some ct, lo, li, ans⟩
        = (db, .validationError)) := by
  constructor <;> (intros; simp [dwUpdateTime])

theorem updateCurrentTime_zero_affected {db : Db} {currentTime : String}
    {memberId lessonId : Nat}
    (h : (updateCurrentTime db currentTime memberId lessonId).2 = 0) :
    (updateCurrentTime db currentTime memberId lessonId).1 = db := by
  simp only [updateCurrentTime] at h ⊢
  rw [List.length_eq_zero] at h
  have hall := List.filter_eq_nil_iff.mp h
  have : db.member_lesson.map (fun r =>
      if (r.MEMBER_ID == memberId && r.ID == lessonId && r.FINISHED == 0) = true
      then setCurrentTime currentTime r else r) = db.member_lesson := by
    calc db.member_lesson.map (fun r =>
          if (r.MEMBER_ID == memberId && r.ID == lessonId && r.FINISHED == 0) = true
          then setCurrentTime currentTime r else r)
        = db.member_lesson.map id := by
          apply List.map_congr_left
          intro a ha
          simp [hall a ha]
      _ = db.member_lesson := List.map_id db.member_lesson
  rw [this]

theorem logStudyTime_no_delta (db : Db) (memberId lessonId : Nat)
    (currentTime : String) (lessonData : List ProgressRow) (logout login : Nat)
    (answer : String) (r : ProgressRow) (rest : List ProgressRow) (t : Nat)
    (hfresh : selectProgress db memberId lessonId = r :: rest)
    (h1 : extendedSeconds r.CURRENT_TIME = some t)
    (h2 : extendedSeconds currentTime = some t) :
    logStudyTime db memberId lessonId currentTime lessonData logout login answer
      = (db, true) := by
  simp [logStudyTime, hfresh, h1, h2]

theorem logStudyTime_insert_eq (db : Db) (memberId lessonId : Nat)
    (currentTime : String) (ld0 : ProgressRow) (ldrest : List ProgressRow)
    (logout login : Nat) (answer : String) (r : ProgressRow)
    (rest : List ProgressRow) (t1 t2 : Nat) (lr : ProgressRow)
    (lrest : List ProgressRow) (cr : CourseLessonRow)
    (crest : List CourseLessonRow)
    (hfresh : selectProgress db memberId lessonId = r :: rest)
    (h1 : extendedSeconds r.CURRENT_TIME = some t1)
    (h2 : extendedSeconds currentTime = some t2)
    (hne : t1 ≠ t2)
    (hlesson : selectLessonById db lessonId = lr :: lrest)
    (hcourse : selectCourseLesson db ld0.LESSON_ID = cr :: crest) :
    logStudyTime db memberId lessonId currentTime (ld0 :: ldrest) logout login answer
      = ({ db with log_study_time := db.log_study_time ++
            [{ MEMBER_ID := memberId, COURSE_ID := cr.COURSE_ID,
               LESSON_ID := ld0.LESSON_ID,
               MEMBER_COURSE_ID := ld0.MEMBER_COURSE_ID,
               STUDY_TIME := Int.natAbs ((t2 : Int) - (t1 : Int)),
               PAUSE_VIDEO_LOGOUT := logout, LOGIN_START_VIDEO := login,
               STUDY_TIME_VIDEO := studyTimeVideo currentTime,
               ANSWER := if answer = noneSentinel then none else some answer }] },
          true) := by
  have hd : Int.natAbs ((t2 : Int) - (t1 : Int)) ≠ 0 := by
    simp only [ne_eq, Int.natAbs_eq_zero, sub_eq_zero, Nat.cast_inj]
    exact fun hh => hne hh.symm
  simp [logStudyTime, hfresh, h1, h2, hd, hlesson, hcourse]

/-- Claim C1: the update writes the new position iff the strict-normalized new
position strictly exceeds the strict-normalized stored one:
`compareTime n e = true ↔ timeToSeconds e < timeToSeconds n`; when the new
position is equal or smaller, the handler answers success-without-mutation,
echoes the pre-update row snapshot `d0`, and leaves `member_lesson`
untouched; conversely any mutation of `member_lesson` implies the strict
comparison was true. -/
theorem claim_C1_advance_iff_strict_greater (db : Db) (memberId lessonId : Nat)
    (ct : String) (lo li : Nat) (ans : String) (d0 : ProgressRow)
    (rest : List ProgressRow)
    (hm : memberId ≠ 0) (hl : lessonId ≠ 0) (hct : ct ≠ "")
    (hdata : selectProgress db memberId lessonId = d0 :: rest) :
    (∀ n e, compareTime n e = true ↔ timeToSeconds e < timeToSeconds n) ∧
    (timeToSeconds ct ≤ timeToSeconds d0.CURRENT_TIME →
      dwUpdateTime db ⟨some memberId, some lessonId, some ct, lo, li, ans⟩
        = ((logStudyTime db memberId lessonId ct (d0 :: rest) lo li ans).1,
            .successNoChange d0) ∧
      (dwUpdateTime db ⟨some memberId, some lessonId, some ct, lo, li, ans⟩).1.member_lesson
        = db.member_lesson) ∧
    ((dwUpdateTime db ⟨some memberId, some lessonId, some ct, lo, li, ans⟩).1.member_lesson
        ≠ db.member_lesson →
      timeToSeconds d0.CURRENT_TIME < timeToSeconds ct) := by
  have hc_iff : ∀ n e, compareTime n e = true ↔ timeToSeconds e < timeToSeconds n := by
    intro n e
    simp [compareTime]
  have hnochange : compareTime ct d0.CURRENT_TIME = false →
      dwUpdateTime db ⟨some memberId, some lessonId, some ct, lo, li, ans⟩
        = ((logStudyTime db memberId lessonId ct (d0 :: rest) lo li ans).1,
            .successNoChange d0) := by
    intro hc
    simp only [dwUpdateTime, Option.getD_some]
    rw [hdata]
    simp [hm, hl, hct, hc]
  refine ⟨hc_iff, ?_, ?_⟩
  · intro hle
    have hc : compareTime ct d0.CURRENT_TIME = false := by
      cases hb : compareTime ct d0.CURRENT_TIME
      · rfl
      · exact absurd ((hc_iff ct d0.CURRENT_TIME).mp hb) (by omega)
    have h1 := hnochange hc
    refine ⟨h1, ?_⟩
    rw [h1]
    exact logStudyTime_fst_member_lesson db memberId lessonId ct (d0 :: rest) lo li ans
  · intro hne
    cases hb : compareTime ct d0.CURRENT_TIME
    · exfalso
      apply hne
      rw [hnochange hb]
      exact logStudyTime_fst_member_lesson db memberId lessonId ct (d0 :: rest) lo li ans
    · exact (hc_iff ct d0.CURRENT_TIME).mp hb

/-- Witness for C1: a submitted position of 5 strict seconds against a
stored 10 leaves the table unchanged and echoes the stored row. -/
theorem claim_C1_witness :
    dwUpdateTime ⟨[⟨1, 2, "0:10", 0, 7, 8⟩], [], []⟩
        ⟨some 1, some 2, some "0:05", 0, 0, "x"⟩
      = ((logStudyTime ⟨[⟨1, 2, "0:10", 0, 7, 8⟩], [], []⟩ 1 2 "0:05"
            ([⟨1, 2, "0:10", 0, 7, 8⟩]) 0 0 "x").1,
          .successNoChange ⟨1, 2, "0:10", 0, 7, 8⟩) :=
  ((claim_C1_advance_iff_strict_greater ⟨[⟨1, 2, "0:10", 0, 7, 8⟩], [], []⟩ 1 2
      "0:05" 0 0 "x" ⟨1, 2, "0:10", 0, 7, 8⟩ []
      (by decide) (by decide) (by decide) (by decide)).2.1 (by decide)).1

/-- Claim C6: when the advance decision is true, the write is the
`FINISHED = 0`-guarded UPDATE scoped to the (member, lesson) key: exactly
one affected row yields success carrying the pre-update snapshot `d0`,
and zero affected rows (for example an existing but finished row) yields
the not-found/already-finished failure with `member_lesson` unchanged. -/
theorem claim_C6_conditional_write (db : Db) (memberId lessonId : Nat)
    (ct : String) (lo li : Nat) (ans : String) (d0 : ProgressRow)
    (rest : List ProgressRow)
    (hm : memberId ≠ 0) (hl : lessonId ≠ 0) (hct : ct ≠ "")
    (hdata : selectProgress db memberId lessonId = d0 :: rest)
    (hcmp : timeToSeconds d0.CURRENT_TIME < timeToSeconds ct) :
    ((db.member_lesson.filter (fun r =>
        r.MEMBER_ID == memberId && r.ID == lessonId && r.FINISHED == 0)).length = 1 →
      (dwUpdateTime db ⟨some memberId, some lessonId, some ct, lo, li, ans⟩).2
        = .successUpdated d0) ∧
    ((db.member_lesson.filter (fun r =>
        r.MEMBER_ID == memberId && r.ID == lessonId && r.FINISHED == 0)).length = 0 →
      (dwUpdateTime db ⟨some memberId, some lessonId, some ct, lo, li, ans⟩).2
        = .notFoundOrFinished ∧
      (dwUpdateTime db ⟨some memberId, some lessonId, some ct, lo, li, ans⟩).1.member_lesson
        = db.member_lesson) := by
  have hc : compareTime ct d0.CURRENT_TIME = true := by
    simp [compareTime, hcmp]
  have hml := logStudyTime_fst_member_lesson db memberId lessonId ct (d0 :: rest)
    lo li ans
  have hcount : (updateCurrentTime
      (logStudyTime db memberId lessonId ct (d0 :: rest) lo li ans).1
      ct memberId lessonId).2
      = (db.member_lesson.filter (fun r =>
          r.MEMBER_ID == memberId && r.ID == lessonId && r.FINISHED == 0)).length := by
    simp [updateCurrentTime, hml]
  have hred : dwUpdateTime db ⟨some memberId, some lessonId, some ct, lo, li, ans⟩
      = (let upd := updateCurrentTime
          (logStudyTime db memberId lessonId ct (d0 :: rest) lo li ans).1
          ct memberId lessonId;
        if upd.2 == 1 then (upd.1, .successUpdated d0)
        else (upd.1, .notFoundOrFinished)) := by
    simp only [dwUpdateTime, Option.getD_some]
    rw [hdata]
    simp [hm, hl, hct, hc]
  constructor
  · intro h1
    rw [hred]
    simp only [hcount, h1]
    rfl
  · intro h0
    have hup0 : (updateCurrentTime
        (logStudyTime db memberId lessonId ct (d0 :: rest) lo li ans).1
        ct memberId lessonId).2 = 0 := by rw [hcount, h0]
    have hfix := updateCurrentTime_zero_affected hup0
    rw [hred]
    simp only [hcount, h0]
    constructor
    · rfl
    · simp [hfix, hml]


/-- Witness for C6: an unfinished row is updated with success, a finished
row yields the not-found/already-finished failure with no write. -/
theorem claim_C6_witness :
    (dwUpdateTime ⟨[⟨1, 2, "0:10", 0, 7, 8⟩], [], []⟩
        ⟨some 1, some 2, some "0:20", 0, 0, "x"⟩).2
      = .successUpdated ⟨1, 2, "0:10", 0, 7, 8⟩ ∧
    (dwUpdateTime ⟨[⟨1, 2, "0:10", 1, 7, 8⟩], [], []⟩
        ⟨some 1, some 2, some "0:20", 0, 0, "x"⟩).2
      = .notFoundOrFinished ∧
    (dwUpdateTime ⟨[⟨1, 2, "0:10", 1, 7, 8⟩], [], []⟩
        ⟨some 1, some 2, some "0:20", 0, 0, "x"⟩).1.member_lesson
      = [⟨1, 2, "0:10", 1, 7, 8⟩] :=
  ⟨(claim_C6_conditional_write ⟨[⟨1, 2, "0:10", 0, 7, 8⟩], [], []⟩ 1 2 "0:20"
      0 0 "x" ⟨1, 2, "0:10", 0, 7, 8⟩ []
      (by decide) (by decide) (by decide) (by decide) (by decide)).1 (by decide),
   (claim_C6_conditional_write ⟨[⟨1, 2, "0:10", 1, 7, 8⟩], [], []⟩ 1 2 "0:20"
      0 0 "x" ⟨1, 2, "0:10", 1, 7, 8⟩ []
      (by decide) (by decide) (by decide) (by decide) (by decide)).2 (by decide)⟩

/-- Claim C4: the logger computes
`delta = |extendedSeconds new − extendedSeconds (fresh stored)|`; with
`delta = 0` it returns success inserting nothing (whatever the strict
comparison or the lessonData argument), and with `delta ≠ 0` and both the
lesson and course-lesson lookups nonempty it appends exactly one audit row
carrying that delta. -/
theorem claim_C4_delta_logging (db : Db) (memberId lessonId : Nat) (ct : String)
    (lo li : Nat) (ans : String) (r : ProgressRow) (rest : List ProgressRow)
    (t1 t2 : Nat)
    (hfresh : selectProgress db memberId lessonId = r :: rest)
    (h1 : extendedSeconds r.CURRENT_TIME = some t1)
    (h2 : extendedSeconds ct = some t2) :
    (t1 = t2 → ∀ lessonData,
      logStudyTime db memberId lessonId ct lessonData lo li ans = (db, true)) ∧
    (t1 ≠ t2 → ∀ ld0 ldrest lr lrest cr crest,
      selectLessonById db lessonId = lr :: lrest →
      selectCourseLesson db ld0.LESSON_ID = cr :: crest →
      ∃ row : LogRow,
        logStudyTime db memberId lessonId ct (ld0 :: ldrest) lo li ans
          = ({ db with log_study_time := db.log_study_time ++ [row] }, true) ∧
        row.STUDY_TIME = Int.natAbs ((t2 : Int) - (t1 : Int))) := by
  constructor
  · intro he ld
    subst he
    exact logStudyTime_no_delta db memberId lessonId ct ld lo li ans r rest t1
      hfresh h1 h2
  · intro hne ld0 ldrest lr lrest cr crest hlesson hcourse
    exact ⟨_, logStudyTime_insert_eq db memberId lessonId ct ld0 ldrest lo li ans
      r rest t1 t2 lr lrest cr crest hfresh h1 h2 hne hlesson hcourse, rfl⟩

/-- Witness for C4: stored "1:00:00" and incoming "0:60:00" have equal
extended seconds (3600) and insert nothing although the strict comparison
is true; stored "0:10" and incoming "0:20" insert one row with delta 10. -/
theorem claim_C4_witness :
    logStudyTime ⟨[⟨1, 2, "1:00:00", 0, 7, 8⟩], [⟨7, 55⟩], []⟩ 1 2 "0:60:00"
        [] 0 0 "x"
      = (⟨[⟨1, 2, "1:00:00", 0, 7, 8⟩], [⟨7, 55⟩], []⟩, true) ∧
    (∃ row : LogRow,
      logStudyTime ⟨[⟨1, 2, "0:10", 0, 7, 8⟩], [⟨7, 55⟩], []⟩ 1 2 "0:20"
          [⟨1, 2, "0:10", 0, 7, 8⟩] 0 0 "x"
        = ({ member_lesson := [⟨1, 2, "0:10", 0, 7, 8⟩],
             course_lesson := [⟨7, 55⟩],
             log_study_time := [] ++ [row] }, true) ∧
      row.STUDY_TIME = Int.natAbs ((20 : Int) - (10 : Int))) :=
  ⟨(claim_C4_delta_logging ⟨[⟨1, 2, "1:00:00", 0, 7, 8⟩], [⟨7, 55⟩], []⟩ 1 2
      "0:60:00" 0 0 "x" ⟨1, 2, "1:00:00", 0, 7, 8⟩ [] 3600 3600
      (by decide) (by decide) (by decide)).1 rfl [],
   (claim_C4_delta_logging ⟨[⟨1, 2, "0:10", 0, 7, 8⟩], [⟨7, 55⟩], []⟩ 1 2
      "0:20" 0 0 "x" ⟨1, 2, "0:10", 0, 7, 8⟩ [] 10 20
      (by decide) (by decide) (by decide)).2 (by decide)
      ⟨1, 2, "0:10", 0, 7, 8⟩ [] ⟨1, 2, "0:10", 0, 7, 8⟩ [] ⟨7, 55⟩ []
      (by decide) (by decide)⟩

theorem selectProgress_empty_of_lesson_empty {db : Db} {lessonId : Nat}
    (h : selectLessonById db lessonId = []) (memberId : Nat) :
    selectProgress db memberId lessonId = [] := by
  have hall := List.filter_eq_nil_iff.mp h
  apply List.filter_eq_nil_iff.mpr
  intro a ha
  have hid := hall a ha
  simp at hid ⊢
  intro _
  exact hid

/-- Claim C5: every failure inside the study-time logger — absent progress
row on re-read, unparseable stored or incoming time, empty lesson or
course-lesson lookup, and the thrown access on an empty `lessonData`
(caught by the try/catch) — yields the failure indicator `(db, false)`
without mutating anything; a false result never mutates the database; and
the caller-visible outcome of the handler depends only on the
`member_lesson` table, so the discarded logger result never influences the
compare-and-write decision. -/
theorem claim_C5_logger_isolated :
    (∀ db memberId lessonId ct ld lo li ans,
      selectProgress db memberId lessonId = [] →
      logStudyTime db memberId lessonId ct ld lo li ans = (db, false)) ∧
    (∀ db memberId lessonId ct ld lo li ans r rest,
      selectProgress db memberId lessonId = r :: rest →
      extendedSeconds r.CURRENT_TIME = none →
      logStudyTime db memberId lessonId ct ld lo li ans = (db, false)) ∧
    (∀ db memberId lessonId ct ld lo li ans r rest t1,
      selectProgress db memberId lessonId = r :: rest →
      extendedSeconds r.CURRENT_TIME = some t1 → extendedSeconds ct = none →
      logStudyTime db memberId lessonId ct ld lo li ans = (db, false)) ∧
    (∀ db memberId lessonId ct ld lo li ans,
      selectLessonById db lessonId = [] →
      logStudyTime db memberId lessonId ct ld lo li ans = (db, false)) ∧
    (∀ db memberId lessonId ct (ld0 : ProgressRow) ldrest lo li ans r rest t1 t2
        lr lrest,
      selectProgress db memberId lessonId = r :: rest →
      extendedSeconds r.CURRENT_TIME = some t1 → extendedSeconds ct = some t2 →
      t1 ≠ t2 → selectLessonById db lessonId = lr :: lrest →
      selectCourseLesson db ld0.LESSON_ID = [] →
      logStudyTime db memberId lessonId ct (ld0 :: ldrest) lo li ans = (db, false)) ∧
    (∀ db memberId lessonId ct lo li ans r rest t1 t2 lr lrest,
      selectProgress db memberId lessonId = r :: rest →
      extendedSeconds r.CURRENT_TIME = some t1 → extendedSeconds ct = some t2 →
      t1 ≠ t2 → selectLessonById db lessonId = lr :: lrest →
      logStudyTime db memberId lessonId ct [] lo li ans = (db, false)) ∧
    (∀ db memberId lessonId ct ld lo li ans,
      (logStudyTime db memberId lessonId ct ld lo li ans).2 = false →
      (logStudyTime db memberId lessonId ct ld lo li ans).1 = db) ∧
    (∀ (db db' : Db) req, db.member_lesson = db'.member_lesson →
      (dwUpdateTime db req).2 = (dwUpdateTime db' req).2) := by
  refine ⟨?_, ?_, ?_, ?_, ?_, ?_, ?_, ?_⟩
  · intro db memberId lessonId ct ld lo li ans h
    simp [logStudyTime, h]
  · intro db memberId lessonId ct ld lo li ans r rest h h1
    simp [logStudyTime, h, h1]
  · intro db memberId lessonId ct ld lo li ans r rest t1 h h1 h2
    simp [logStudyTime, h, h1, h2]
  · intro db memberId lessonId ct ld lo li ans h
    simp [logStudyTime, selectProgress_empty_of_lesson_empty h memberId]
  · intro db memberId lessonId ct ld0 ldrest lo li ans r rest t1 t2 lr lrest
      h h1 h2 hne hlesson hcourse
    have hd : Int.natAbs ((t2 : Int) - (t1 : Int)) ≠ 0 := by
      simp only [ne_eq, Int.natAbs_eq_zero, sub_eq_zero, Nat.cast_inj]
      exact fun hh => hne hh.symm
    simp [logStudyTime, h, h1, h2, hd, hlesson, hcourse]
  · intro db memberId lessonId ct lo li ans r rest t1 t2 lr lrest
      h h1 h2 hne hlesson
    have hd : Int.natAbs ((t2 : Int) - (t1 : Int)) ≠ 0 := by
      simp only [ne_eq, Int.natAbs_eq_zero, sub_eq_zero, Nat.cast_inj]
      exact fun hh => hne hh.symm
    simp [logStudyTime, h, h1, h2, hd, hlesson]
  · intro db memberId lessonId ct ld lo li ans h
    exact logStudyTime_false_fst db memberId lessonId ct ld lo li ans h
  · intro db db' req h
    exact dwUpdateTime_snd_congr req h

/-- Witness for C5: each failure case of the claim discharged on a concrete
database, plus the no-mutation and response-independence parts. -/
theorem claim_C5_witness :
    logStudyTime ⟨[], [], []⟩ 1 2 "0:20" [] 0 0 "x" = (⟨[], [], []⟩, false) ∧
    logStudyTime ⟨[⟨1, 2, "abc", 0, 7, 8⟩], [], []⟩ 1 2 "0:20" [] 0 0 "x"
      = (⟨[⟨1, 2, "abc", 0, 7, 8⟩], [], []⟩, false) ∧
    logStudyTime ⟨[⟨1, 2, "0:10", 0, 7, 8⟩], [], []⟩ 1 2 "abc" [] 0 0 "x"
      = (⟨[⟨1, 2, "0:10", 0, 7, 8⟩], [], []⟩, false) ∧
    logStudyTime ⟨[⟨9, 9, "0:10", 0, 7, 8⟩], [], []⟩ 1 2 "0:20" [] 0 0 "x"
      = (⟨[⟨9, 9, "0:10", 0, 7, 8⟩], [], []⟩, false) ∧
    logStudyTime ⟨[⟨1, 2, "0:10", 0, 7, 8⟩], [], []⟩ 1 2 "0:20"
        [⟨1, 2, "0:10", 0, 7, 8⟩] 0 0 "x"
      = (⟨[⟨1, 2, "0:10", 0, 7, 8⟩], [], []⟩, false) ∧
    logStudyTime ⟨[⟨1, 2, "0:10", 0, 7, 8⟩], [], []⟩ 1 2 "0:20" [] 0 0 "x"
      = (⟨[⟨1, 2, "0:10", 0, 7, 8⟩], [], []⟩, false) ∧
    (logStudyTime ⟨[], [], []⟩ 1 2 "0:20" [] 0 0 "x").1 = ⟨[], [], []⟩ ∧
    (dwUpdateTime ⟨[], [⟨7, 55⟩], []⟩ ⟨some 1, some 2, some "0:20", 0, 0, "x"⟩).2
      = (dwUpdateTime ⟨[], [], []⟩ ⟨some 1, some 2, some "0:20", 0, 0, "x"⟩).2 :=
  ⟨claim_C5_logger_isolated.1 ⟨[], [], []⟩ 1 2 "0:20" [] 0 0 "x" (by decide),
   claim_C5_logger_isolated.2.1 ⟨[⟨1, 2, "abc", 0, 7, 8⟩], [], []⟩ 1 2 "0:20"
     [] 0 0 "x" ⟨1, 2, "abc", 0, 7, 8⟩ [] (by decide) (by decide),
   claim_C5_logger_isolated.2.2.1 ⟨[⟨1, 2, "0:10", 0, 7, 8⟩], [], []⟩ 1 2 "abc"
     [] 0 0 "x" ⟨1, 2, "0:10", 0, 7, 8⟩ [] 10 (by decide) (by decide) (by decide),
   claim_C5_logger_isolated.2.2.2.1 ⟨[⟨9, 9, "0:10", 0, 7, 8⟩], [], []⟩ 1 2
     "0:20" [] 0 0 "x" (by decide),
   claim_C5_logger_isolated.2.2.2.2.1 ⟨[⟨1, 2, "0:10", 0, 7, 8⟩], [], []⟩ 1 2
     "0:20" ⟨1, 2, "0:10", 0, 7, 8⟩ [] 0 0 "x" ⟨1, 2, "0:10", 0, 7, 8⟩ [] 10 20
     ⟨1, 2, "0:10", 0, 7, 8⟩ [] (by decide) (by decide) (by decide) (by decide)
     (by decide) (by decide),
   claim_C5_logger_isolated.2.2.2.2.2.1 ⟨[⟨1, 2, "0:10", 0, 7, 8⟩], [], []⟩ 1 2
     "0:20" 0 0 "x" ⟨1, 2, "0:10", 0, 7, 8⟩ [] 10 20 ⟨1, 2, "0:10", 0, 7, 8⟩ []
     (by decide) (by decide) (by decide) (by decide) (by decide),
   claim_C5_logger_isolated.2.2.2.2.2.2.1 ⟨[], [], []⟩ 1 2 "0:20" [] 0 0 "x"
     (by decide),
   claim_C5_logger_isolated.2.2.2.2.2.2.2 ⟨[], [⟨7, 55⟩], []⟩ ⟨[], [], []⟩
     ⟨some 1, some 2, some "0:20", 0, 0, "x"⟩ rfl⟩

/-- Claim C8: the inserted audit row's video-position string is the incoming
time with every `:` replaced by `.` and the leading run of `0` characters
stripped (empty result mapped to "0"), and its answer field is absent
exactly when the supplied answer equals the "none" sentinel, verbatim
otherwise. -/
theorem claim_C8_audit_row_derived_fields (db : Db) (memberId lessonId : Nat)
    (ct : String) (ld0 : ProgressRow) (ldrest : List ProgressRow) (lo li : Nat)
    (ans : String) (r : ProgressRow) (rest : List ProgressRow) (t1 t2 : Nat)
    (lr : ProgressRow) (lrest : List ProgressRow) (cr : CourseLessonRow)
    (crest : List CourseLessonRow)
    (hfresh : selectProgress db memberId lessonId = r :: rest)
    (h1 : extendedSeconds r.CURRENT_TIME = some t1)
    (h2 : extendedSeconds ct = some t2)
    (hne : t1 ≠ t2)
    (hlesson : selectLessonById db lessonId = lr :: lrest)
    (hcourse : selectCourseLesson db ld0.LESSON_ID = cr :: crest) :
    (∃ row : LogRow,
      logStudyTime db memberId lessonId ct (ld0 :: ldrest) lo li ans
        = ({ db with log_study_time := db.log_study_time ++ [row] }, true) ∧
      row.STUDY_TIME_VIDEO = studyTimeVideo ct ∧
      row.ANSWER = (if ans = noneSentinel then none else some ans)) ∧
    studyTimeVideo "00:05:30" = ".05.30" ∧
    studyTimeVideo "000" = "0" ∧
    studyTimeVideo "0" = "0" ∧
    studyTimeVideo "00:00" = ".00" ∧
    noneSentinel = "ไม่มี" :=
  ⟨⟨_, logStudyTime_insert_eq db memberId lessonId ct ld0 ldrest lo li ans r rest
      t1 t2 lr lrest cr crest hfresh h1 h2 hne hlesson hcourse, rfl, rfl⟩,
    by decide, by decide, by decide, by decide, rfl⟩

/-- Witness for C8: an insert with the sentinel answer stores an absent
answer and the derived video-position string. -/
theorem claim_C8_witness :
    (∃ row : LogRow,
      logStudyTime ⟨[⟨1, 2, "0:10", 0, 7, 8⟩], [⟨7, 55⟩], []⟩ 1 2 "0:20"
          [⟨1, 2, "0:10", 0, 7, 8⟩] 0 0 "ไม่มี"
        = ({ member_lesson := [⟨1, 2, "0:10", 0, 7, 8⟩],
             course_lesson := [⟨7, 55⟩],
             log_study_time := [] ++ [row] }, true) ∧
      row.STUDY_TIME_VIDEO = studyTimeVideo "0:20" ∧
      row.ANSWER = (if "ไม่มี" = noneSentinel then none else some "ไม่มี")) ∧
    studyTimeVideo "00:05:30" = ".05.30" ∧
    studyTimeVideo "000" = "0" ∧
    studyTimeVideo "0" = "0" ∧
    studyTimeVideo "00:00" = ".00" ∧
    noneSentinel = "ไม่มี" :=
  claim_C8_audit_row_derived_fields ⟨[⟨1, 2, "0:10", 0, 7, 8⟩], [⟨7, 55⟩], []⟩
    1 2 "0:20" ⟨1, 2, "0:10", 0, 7, 8⟩ [] 0 0 "ไม่มี" ⟨1, 2, "0:10", 0, 7, 8⟩ []
    10 20 ⟨1, 2, "0:10", 0, 7, 8⟩ [] ⟨7, 55⟩ []
    (by decide) (by decide) (by decide) (by decide) (by decide) (by decide)

/-- Claim C9: the audit row's lesson and enrollment identifiers come from
the caller-passed progress row `ld0` (`lessonData[0]`), not from the
logger's fresh re-read `r`; the fresh re-read contributes only the stored
position whose extended seconds `t1` enter the delta. -/
theorem claim_C9_ids_from_caller_row (db : Db) (memberId lessonId : Nat)
    (ct : String) (ld0 : ProgressRow) (ldrest : List ProgressRow) (lo li : Nat)
    (ans : String) (r : ProgressRow) (rest : List ProgressRow) (t1 t2 : Nat)
    (lr : ProgressRow) (lrest : List ProgressRow) (cr : CourseLessonRow)
    (crest : List CourseLessonRow)
    (hfresh : selectProgress db memberId lessonId = r :: rest)
    (h1 : extendedSeconds r.CURRENT_TIME = some t1)
    (h2 : extendedSeconds ct = some t2)
    (hne : t1 ≠ t2)
    (hlesson : selectLessonById db lessonId = lr :: lrest)
    (hcourse : selectCourseLesson db ld0.LESSON_ID = cr :: crest) :
    ∃ row : LogRow,
      logStudyTime db memberId lessonId ct (ld0 :: ldrest) lo li ans
        = ({ db with log_study_time := db.log_study_time ++ [row] }, true) ∧
      row.LESSON_ID = ld0.LESSON_ID ∧
      row.MEMBER_COURSE_ID = ld0.MEMBER_COURSE_ID ∧
      row.COURSE_ID = cr.COURSE_ID ∧
      row.STUDY_TIME = Int.natAbs ((t2 : Int) - (t1 : Int)) :=
  ⟨_, logStudyTime_insert_eq db memberId lessonId ct ld0 ldrest lo li ans r rest
      t1 t2 lr lrest cr crest hfresh h1 h2 hne hlesson hcourse,
    rfl, rfl, rfl, rfl⟩

/-- Witness for C9: the caller-passed row has LESSON_ID 9 and
MEMBER_COURSE_ID 10 while the fresh re-read row has 7 and 8; the audit row
carries 9 and 10, and its delta comes from the fresh row's "0:10". -/
theorem claim_C9_witness :
    ∃ row : LogRow,
      logStudyTime ⟨[⟨1, 2, "0:10", 0, 7, 8⟩], [⟨9, 77⟩], []⟩ 1 2 "0:20"
          [⟨1, 2, "0:30", 0, 9, 10⟩] 0 0 "x"
        = ({ member_lesson := [⟨1, 2, "0:10", 0, 7, 8⟩],
             course_lesson := [⟨9, 77⟩],
             log_study_time := [] ++ [row] }, true) ∧
      row.LESSON_ID = 9 ∧
      row.MEMBER_COURSE_ID = 10 ∧
      row.COURSE_ID = 77 ∧
      row.STUDY_TIME = Int.natAbs ((20 : Int) - (10 : Int)) :=
  claim_C9_ids_from_caller_row ⟨[⟨1, 2, "0:10", 0, 7, 8⟩], [⟨9, 77⟩], []⟩ 1 2
    "0:20" ⟨1, 2, "0:30", 0, 9, 10⟩ [] 0 0 "x" ⟨1, 2, "0:10", 0, 7, 8⟩ [] 10 20
    ⟨1, 2, "0:10", 0, 7, 8⟩ [] ⟨9, 77⟩ []
    (by decide) (by decide) (by decide) (by decide) (by decide) (by decide)
